import Mathlib

/-!
Verification development for the chili-tracker application (src/app.py).

The application is a single-file Streamlit app over a SQLite database with
three tables: `users`, `chilies` and `activity_log`.  We embed the database
as lists of structures (in rowid / insertion order, with explicit
autoincrement counters) and each database-touching code path as a pure
function on that state.

Modelling decisions, each noted at the definition it concerns:
  * the SHA-256 hash (`hashlib.sha256(...).hexdigest()`) is an external
    library call; it is modelled as an abstract function parameter
    `hash_password : String → String` (the code uses it only as a
    deterministic one-way map);
  * Streamlit's `st.number_input(..., min_value=m)` widget never returns a
    value below `m`; it is modelled as clamping with `max`;
  * `ORDER BY planting_date DESC` is modelled as a stable descending sort,
    i.e. rows with equal keys stay in structural (rowid) order, following
    the specification's own reading of the storage layer;
  * in the CSV importer, pandas yields NaN for an empty cell and the
    sqlite3 driver binds NaN as SQL NULL, so a NULL in one of the NOT NULL
    columns of `chilies` raises IntegrityError out of the uncaught insert
    loop: the importer's rows therefore carry every column as an `Option`,
    its per-row insert is fallible, and its loop aborts at the first
    failure with the earlier inserts retained;
  * floating-point display rounding `round(x, 1)` is modelled over ℚ; the
    claims evaluated through it involve no half-way values, where Python's
    rounding mode would differ.
-/

namespace ChiliTracker

/-- Row of the `users` table: id, username, password (the stored hash), role. -/
structure User where
  id : Nat
  username : String
  password : String
  role : String
  deriving Repr, DecidableEq

/-- Row of the `chilies` table.  `seeds_planted`, `germinated_seeds` and
`harvest_yield` are SQLite INTEGERs (modelled as `Int`); nullable columns are
`Option`.  Dates are modelled as natural numbers whose order matches calendar
order (e.g. 20240301 for 2024-03-01). -/
structure PlantingRecord where
  id : Nat
  user_id : Nat
  variety : String
  planting_date : Nat
  seeds_planted : Int
  germinated_seeds : Option Int
  germination_date : Option Nat
  harvest_yield : Option Int
  notes : Option String
  photo_path : Option String
  deriving Repr, DecidableEq

/-- Row of the `activity_log` table (timestamps are not modelled; entries are
kept in insertion order, which the autoincrementing `id` records). -/
structure ActivityLogEntry where
  id : Nat
  user_id : Option Nat
  action : String
  deriving Repr, DecidableEq

/-- The whole database state: the three tables in rowid order together with
their AUTOINCREMENT counters. -/
structure AppDb where
  users : List User
  chilies : List PlantingRecord
  activity_log : List ActivityLogEntry
  next_user_id : Nat
  next_chili_id : Nat
  next_log_id : Nat
  deriving Repr, DecidableEq

/-- The freshly created database (all three CREATE TABLE statements, no rows). -/
def emptyDb : AppDb :=
  { users := [], chilies := [], activity_log := [],
    next_user_id := 1, next_chili_id := 1, next_log_id := 1 }

/-- Embeds `check_login` (app.py:20-22): SELECT * FROM users WHERE
username = ? AND password = hash_password(password); `fetchone` yields the
first matching row or None.  `hash_password` (app.py:17-18) is the abstract
hash parameter. -/
def check_login (hash_password : String → String)
    (username password : String) (users : List User) : Option User :=
  users.find? (fun u => u.username == username && u.password == hash_password password)

/-- Error raised by the UNIQUE constraint on `users.username`
(sqlite3.IntegrityError, caught at app.py:100). -/
inductive AccountError where
  | duplicateUsername
  deriving Repr, DecidableEq

/-- Embeds the account-creation branch of `login_ui` (app.py:94-101):
INSERT INTO users (username, password, role) VALUES (?, hash_password(?), ?).
The UNIQUE constraint on username makes the insert fail when the username
already exists.  Note the code performs no `log_action` call on this path. -/
def create_account (hash_password : String → String)
    (username password role : String) (db : AppDb) : Except AccountError (User × AppDb) :=
  if db.users.any (fun u => u.username == username) then
    .error .duplicateUsername
  else
    let u : User := ⟨db.next_user_id, username, hash_password password, role⟩
    .ok (u, { db with users := db.users ++ [u], next_user_id := db.next_user_id + 1 })

/-- Embeds `log_action` (app.py:110-112): INSERT INTO activity_log
(user_id, action) VALUES (session user id, action). -/
def log_action (user_id : Nat) (action : String) (db : AppDb) : AppDb :=
  { db with
    activity_log := db.activity_log ++ [⟨db.next_log_id, some user_id, action⟩],
    next_log_id := db.next_log_id + 1 }

/-- Streamlit's `st.number_input(..., min_value=m)` widget: the submitted
value is never below `m`. -/
def number_input (min_value v : Int) : Int := max min_value v

/-- Stable descending insertion by `planting_date`: the inserted record is
placed before the first element whose date is not greater, so among equal
dates earlier insertions stay earlier. -/
def insertByDateDesc (r : PlantingRecord) : List PlantingRecord → List PlantingRecord
  | [] => [r]
  | x :: xs =>
    if r.planting_date < x.planting_date then x :: insertByDateDesc r xs
    else r :: x :: xs

/-- Stable sort by `planting_date` descending, equal keys in original
(structural / rowid) order: the model of SQLite's ORDER BY planting_date DESC
over a table scanned in rowid order. -/
def sortByDateDesc (l : List PlantingRecord) : List PlantingRecord :=
  l.foldr insertByDateDesc []

/-- Embeds `load_data` (app.py:106-108): SELECT * FROM chilies WHERE
user_id = ? ORDER BY planting_date DESC. -/
def load_data (user_id : Nat) (db : AppDb) : List PlantingRecord :=
  sortByDateDesc (db.chilies.filter (fun r => r.user_id == user_id))

/-- Embeds the submit branch of `show_add_form` (app.py:148-157).  The form
widgets constrain seeds_planted ≥ 1 and germinated_seeds, harvest_yield ≥ 0
(`number_input` clamps), the date pickers always supply a date, and every
field is inserted as a concrete value (no NULLs from this path except
photo_path).  The insert is unconditional: no field is validated beyond the
widget constraints; in particular an empty variety string is inserted as-is.
Emits the `log_action` for "Added chili variety ...". -/
def show_add_form_submit (user_id : Nat) (variety : String) (planting_date : Nat)
    (seeds_planted germinated_seeds : Int) (germination_date : Nat)
    (harvest_yield : Int) (notes : String) (photo_path : Option String)
    (db : AppDb) : AppDb :=
  let r : PlantingRecord :=
    { id := db.next_chili_id
      user_id := user_id
      variety := variety
      planting_date := planting_date
      seeds_planted := number_input 1 seeds_planted
      germinated_seeds := some (number_input 0 germinated_seeds)
      germination_date := some germination_date
      harvest_yield := some (number_input 0 harvest_yield)
      notes := some notes
      photo_path := photo_path }
  let db' := { db with chilies := db.chilies ++ [r], next_chili_id := db.next_chili_id + 1 }
  log_action user_id ("Added chili variety " ++ variety) db'

/-- The seven mutable fields written by the UPDATE statement of `show_table`
(app.py:185-187), after the form widget clamps have been applied. -/
structure UpdateFields where
  variety : String
  planting_date : Nat
  seeds_planted : Int
  germinated_seeds : Int
  germination_date : Nat
  harvest_yield : Int
  notes : String
  deriving Repr, DecidableEq

/-- Applies the UPDATE's SET clause to one row: full replace of the seven
mutable fields; id, user_id and photo_path are untouched. -/
def applyUpdate (f : UpdateFields) (r : PlantingRecord) : PlantingRecord :=
  { r with
    variety := f.variety
    planting_date := f.planting_date
    seeds_planted := number_input 1 f.seeds_planted
    germinated_seeds := some (number_input 0 f.germinated_seeds)
    germination_date := some f.germination_date
    harvest_yield := some (number_input 0 f.harvest_yield)
    notes := some f.notes }

/-- Embeds the update branch of `show_table` (app.py:184-191):
UPDATE chilies SET ... WHERE id = ?.  The WHERE clause matches on id only —
the statement carries no user_id condition, so ownership of the row is not
checked; the caller (the session user) appears only in the activity-log
entry.  Emits the `log_action` for "Updated chili record ...". -/
def show_table_update (caller_user_id record_id : Nat) (f : UpdateFields)
    (db : AppDb) : AppDb :=
  let db' := { db with
    chilies := db.chilies.map (fun r => if r.id == record_id then applyUpdate f r else r) }
  log_action caller_user_id ("Updated chili record " ++ toString record_id) db'

/-- Embeds the delete branch of `show_table` (app.py:193-198):
DELETE FROM chilies WHERE id = ?.  SQL DELETE with no matching row is a
silent no-op; the code then logs and reports success unconditionally. -/
def show_table_delete (caller_user_id record_id : Nat) (db : AppDb) : AppDb :=
  let db' := { db with chilies := db.chilies.filter (fun r => r.id ≠ record_id) }
  log_action caller_user_id ("Deleted chili record " ++ toString record_id) db'

/-- One parsed CSV row of `show_upload_csv` (app.py:216-222).  Every column
may be missing: pandas yields NaN for an empty cell, and the sqlite3 driver
binds NaN as SQL NULL, so even the NOT NULL columns can arrive as NULL. -/
structure CsvRow where
  variety : Option String
  planting_date : Option Nat
  seeds_planted : Option Int
  germinated_seeds : Option Int
  germination_date : Option Nat
  harvest_yield : Option Int
  notes : Option String
  deriving Repr, DecidableEq

/-- Error raised by the NOT NULL constraints on chilies.variety,
planting_date and seeds_planted (sqlite3.IntegrityError, uncaught in
`show_upload_csv`). -/
inductive InsertError where
  | notNullViolation
  deriving Repr, DecidableEq

/-- Condition under which one CSV row's INSERT binds without violating a
constraint: the three NOT NULL columns are all present. -/
def requiredPresent (row : CsvRow) : Prop :=
  row.variety ≠ none ∧ row.planting_date ≠ none ∧ row.seeds_planted ≠ none

instance (row : CsvRow) : Decidable (requiredPresent row) := by
  unfold requiredPresent; infer_instance

/-- The INSERT performed for one CSV row (app.py:218-222): every column
value is bound from the row verbatim, with no validation of any kind; a NULL
in one of the NOT NULL columns makes the statement itself raise
IntegrityError; photo_path is not in the column list, so it is NULL. -/
def insert_csv_row (user_id : Nat) (row : CsvRow) (db : AppDb) :
    Except InsertError AppDb :=
  match row.variety, row.planting_date, row.seeds_planted with
  | some v, some pd, some sp =>
    .ok { db with
      chilies := db.chilies ++
        [{ id := db.next_chili_id
           user_id := user_id
           variety := v
           planting_date := pd
           seeds_planted := sp
           germinated_seeds := row.germinated_seeds
           germination_date := row.germination_date
           harvest_yield := row.harvest_yield
           notes := row.notes
           photo_path := none }],
      next_chili_id := db.next_chili_id + 1 }
  | _, _, _ => .error .notNullViolation

/-- The for-loop of `show_upload_csv` (app.py:217-222): rows are inserted in
order; the first IntegrityError propagates and aborts the loop — rows
already inserted remain (no rollback is issued), later rows are never
attempted. -/
def csv_insert_loop (user_id : Nat) : List CsvRow → AppDb → AppDb × Option InsertError
  | [], db => (db, none)
  | row :: rest, db =>
    match insert_csv_row user_id row db with
    | .ok db' => csv_insert_loop user_id rest db'
    | .error e => (db, some e)

/-- Embeds `show_upload_csv` (app.py:214-225): runs the per-row insert loop;
when every row inserts, a single activity-log entry "Uploaded chili data
from CSV" is written for the whole batch; when a row raises, the uncaught
exception aborts the handler before the commit and the log call — the rows
inserted so far remain (the specification's design notes record that partial
failure leaves partial data) and no log entry is written.  Returns the
resulting database state together with the outcome. -/
def show_upload_csv (user_id : Nat) (rows : List CsvRow) (db : AppDb) :
    AppDb × Option InsertError :=
  match csv_insert_loop user_id rows db with
  | (db', none) => (log_action user_id "Uploaded chili data from CSV" db', none)
  | (db', some e) => (db', some e)

/-- Display rounding to one decimal place over ℚ (models Python's
`round(x, 1)`; the rounding modes differ only at exact half-way values, which
the evaluated claims do not involve). -/
def round1 (q : ℚ) : ℚ := (round (q * 10) : ℤ) / 10

/-- The per-row germination ratios of the dashboard:
`df["germinated_seeds"] / df["seeds_planted"]` keeps only the rows where
germinated_seeds is non-NULL (a NULL gives NaN, which pandas' `mean` skips). -/
def germRatios (rows : List PlantingRecord) : List ℚ :=
  rows.filterMap (fun r => r.germinated_seeds.map (fun g => (g : ℚ) / (r.seeds_planted : ℚ)))

/-- The third dashboard metric (app.py:134):
`round((df["germinated_seeds"] / df["seeds_planted"]).mean() * 100, 1)`:
the mean of the available ratios, times 100, rounded to one decimal; `none`
when no row has germinated_seeds (pandas mean of an all-NaN column is NaN). -/
def avgGermRatePct (rows : List PlantingRecord) : Option ℚ :=
  let ratios := germRatios rows
  if ratios.length = 0 then none
  else some (round1 (ratios.sum / (ratios.length : ℚ) * 100))

/-- Embeds `show_dashboard` (app.py:125-134): over `load_data` for the
session user, when non-empty, the three metrics (distinct variety count,
sum of seeds_planted, average germination rate in percent). -/
def show_dashboard (user_id : Nat) (db : AppDb) : Option (Nat × Int × Option ℚ) :=
  let df := load_data user_id db
  if df.isEmpty then none
  else some ((df.map (fun r => r.variety)).eraseDups.length,
             (df.map (fun r => r.seeds_planted)).sum,
             avgGermRatePct df)

/-- Intended output order of `load_data` as the model yields it: strictly
later planting_date first, and among equal dates the smaller (earlier
inserted) id first. -/
def chronOrder (a b : PlantingRecord) : Prop :=
  b.planting_date < a.planting_date ∨
    (a.planting_date = b.planting_date ∧ a.id < b.id)

instance (a b : PlantingRecord) : Decidable (chronOrder a b) := by
  unfold chronOrder; infer_instance

/-- Content of a chilies row as the seven bind parameters of the CSV INSERT
(the NOT NULL columns wrapped in `some`; id, user_id, photo_path excluded). -/
def recordData (r : PlantingRecord) :
    Option String × Option Nat × Option Int × Option Int × Option Nat
      × Option Int × Option String :=
  (some r.variety, some r.planting_date, some r.seeds_planted, r.germinated_seeds,
   r.germination_date, r.harvest_yield, r.notes)

/-- Content of a CSV row, in the same column order as `recordData`. -/
def csvRowData (row : CsvRow) :
    Option String × Option Nat × Option Int × Option Int × Option Nat
      × Option Int × Option String :=
  (row.variety, row.planting_date, row.seeds_planted, row.germinated_seeds,
   row.germination_date, row.harvest_yield, row.notes)

/-- Example database for the ownership analysis: one record, owned by user 1. -/
def c1db : AppDb :=
  { emptyDb with
    chilies := [⟨1, 1, "Habanero", 5, 10, none, none, none, none, none⟩],
    next_chili_id := 2 }

/-- Replacement field values used in the ownership analysis. -/
def c1f : UpdateFields := ⟨"Poblano", 5, 10, 0, 6, 0, ""⟩

/-- Example database for the delete analysis: records 1 and 2, both of user 1. -/
def c2db : AppDb :=
  { emptyDb with
    chilies := [⟨1, 1, "Habanero", 5, 10, none, none, none, none, none⟩,
                ⟨2, 1, "Serrano", 6, 4, none, none, none, none, none⟩],
    next_chili_id := 3 }

/-- Database produced by submitting the add form with an empty variety. -/
def c3db : AppDb := show_add_form_submit 7 "" 20240301 5 0 20240310 0 "" none emptyDb

/-- Example database with two records of user 1 sharing a planting date. -/
def c4db : AppDb :=
  { emptyDb with
    chilies := [⟨1, 1, "Habanero", 5, 10, none, none, none, none, none⟩,
                ⟨2, 1, "Serrano", 5, 10, none, none, none, none, none⟩],
    next_chili_id := 3 }

/-- Example database mixing two owners, distinct dates and one date tie. -/
def c4wdb : AppDb :=
  { emptyDb with
    chilies := [⟨1, 1, "Habanero", 5, 10, none, none, none, none, none⟩,
                ⟨2, 1, "Serrano", 5, 10, none, none, none, none, none⟩,
                ⟨3, 1, "Cayenne", 7, 10, none, none, none, none, none⟩,
                ⟨4, 2, "Poblano", 9, 10, none, none, none, none, none⟩],
    next_chili_id := 5 }

/-- CSV row carrying seeds_planted = 0 (all required cells present, so the
INSERT binds cleanly). -/
def c5row : CsvRow := ⟨some "Ghost", some 20240101, some 0, some 0, none, none, none⟩

/-- Database after bulk-importing the zero-seed row for user 3. -/
def c5db : AppDb := (show_upload_csv 3 [c5row] emptyDb).1

/-- CSV batch: a row violating the add-form rules (empty-string variety,
zero seeds — both bind cleanly, neither is NULL) followed by a well-formed
row. -/
def c7rows : List CsvRow :=
  [⟨some "", some 20240101, some 0, none, none, none, none⟩,
   ⟨some "Cayenne", some 20240315, some 20, some 15, some 20240320, some 80, some "Test B"⟩]

/-- Database after bulk-importing that batch for user 4. -/
def c7db : AppDb := (show_upload_csv 4 c7rows emptyDb).1

/-- CSV row whose variety cell is empty: pandas yields NaN, which binds as
SQL NULL and fires the NOT NULL constraint. -/
def c7badRow : CsvRow := ⟨none, some 20240401, some 5, none, none, none, none⟩

/-- Database obtained by adding the specification's example record
(variety Jalapeño, planted 2024-03-01, 10 seeds, 8 germinated). -/
def c9db : AppDb := show_add_form_submit 1 "Jalapeño" 20240301 10 8 20240310 0 "" none emptyDb

section Helpers

/-- Membership is preserved by the stable descending insertion. -/
theorem mem_insertByDateDesc {x r : PlantingRecord} {l : List PlantingRecord} :
    x ∈ insertByDateDesc r l ↔ x = r ∨ x ∈ l := by
  induction l with
  | nil => simp [insertByDateDesc]
  | cons y ys ih =>
    by_cases h : r.planting_date < y.planting_date
    · simp only [insertByDateDesc, if_pos h, List.mem_cons, ih]
      tauto
    · simp only [insertByDateDesc, if_neg h, List.mem_cons]

/-- The stable descending insertion is a permutation of consing. -/
theorem perm_insertByDateDesc (r : PlantingRecord) (l : List PlantingRecord) :
    (insertByDateDesc r l).Perm (r :: l) := by
  induction l with
  | nil => simp [insertByDateDesc]
  | cons y ys ih =>
    by_cases h : r.planting_date < y.planting_date
    · simp only [insertByDateDesc, if_pos h]
      exact (ih.cons y).trans (List.Perm.swap r y ys)
    · simp only [insertByDateDesc, if_neg h]
      exact List.Perm.refl _

/-- The stable descending sort permutes its input. -/
theorem perm_sortByDateDesc (l : List PlantingRecord) :
    (sortByDateDesc l).Perm l := by
  induction l with
  | nil => exact List.Perm.refl _
  | cons y ys ih =>
    exact (perm_insertByDateDesc y (sortByDateDesc ys)).trans (ih.cons y)

/-- Inserting a record whose id is below every id already present keeps the
list pairwise-ordered by `chronOrder`. -/
theorem pairwise_insertByDateDesc {r : PlantingRecord} {l : List PlantingRecord}
    (hl : l.Pairwise chronOrder) (hid : ∀ x ∈ l, r.id < x.id) :
    (insertByDateDesc r l).Pairwise chronOrder := by
  induction l with
  | nil => simp [insertByDateDesc]
  | cons y ys ih =>
    rcases List.pairwise_cons.mp hl with ⟨hy, hys⟩
    by_cases h : r.planting_date < y.planting_date
    · simp only [insertByDateDesc, if_pos h]
      refine List.pairwise_cons.mpr ⟨?_, ih hys (fun x hx => hid x (List.mem_cons_of_mem _ hx))⟩
      intro z hz
      rcases mem_insertByDateDesc.mp hz with rfl | hzys
      · exact Or.inl h
      · exact hy z hzys
    · simp only [insertByDateDesc, if_neg h]
      push_neg at h
      refine List.pairwise_cons.mpr ⟨?_, hl⟩
      intro z hz
      rcases List.mem_cons.mp hz with rfl | hzys
      · rcases lt_or_eq_of_le h with hlt | heq
        · exact Or.inl hlt
        · exact Or.inr ⟨heq.symm, hid z (List.mem_cons_self z ys)⟩
      · rcases hy z hzys with hlt | ⟨heq, hidyz⟩
        · exact Or.inl (lt_of_lt_of_le hlt h)
        · rcases lt_or_eq_of_le h with hlt2 | heq2
          · exact Or.inl (heq ▸ hlt2)
          · exact Or.inr ⟨heq2.symm.trans heq, hid z (List.mem_cons_of_mem _ hzys)⟩

/-- Sorting a list whose ids strictly increase (rowid order) yields a list
pairwise-ordered by `chronOrder`: dates descending, ties id-ascending. -/
theorem pairwise_sortByDateDesc {l : List PlantingRecord}
    (h : l.Pairwise (fun a b => a.id < b.id)) :
    (sortByDateDesc l).Pairwise chronOrder := by
  induction l with
  | nil => simp [sortByDateDesc]
  | cons y ys ih =>
    rcases List.pairwise_cons.mp h with ⟨hy, hys⟩
    exact pairwise_insertByDateDesc (ih hys)
      (fun x hx => hy x ((perm_sortByDateDesc ys).mem_iff.mp hx))

/-- Filtering twice with the same predicate equals filtering once. -/
theorem filter_filter_self {α : Type} (p : α → Bool) (l : List α) :
    (l.filter p).filter p = l.filter p := by
  induction l with
  | nil => rfl
  | cons x xs ih =>
    by_cases h : p x = true
    · simp [List.filter_cons, h, ih]
    · simp [List.filter_cons, h, ih]

/-- Search in a one-element extension when nothing on the left matches. -/
theorem find?_append_all_false {α : Type} (p : α → Bool) (l : List α) (x : α)
    (h : ∀ y ∈ l, p y = false) :
    (l ++ [x]).find? p = if p x then some x else none := by
  rw [List.find?_append, List.find?_eq_none.mpr (fun y hy => by simp [h y hy])]
  by_cases hx : p x = true
  · simp [List.find?, hx]
  · simp [List.find?, hx]

/-- A CSV row with its three required cells present inserts successfully,
appending exactly one record carrying the row's column values verbatim. -/
theorem insert_csv_row_requiredPresent (user_id : Nat) (row : CsvRow) (db : AppDb)
    (h : requiredPresent row) :
    ∃ db' r, insert_csv_row user_id row db = .ok db' ∧
      db' = { db with chilies := db.chilies ++ [r],
                      next_chili_id := db.next_chili_id + 1 } ∧
      recordData r = csvRowData row ∧ r.user_id = user_id := by
  obtain ⟨hv, hp, hs⟩ := h
  obtain ⟨rv, rp, rs, g1, g2, g3, g4⟩ := row
  rcases rv with _ | v
  · exact absurd rfl hv
  rcases rp with _ | pd
  · exact absurd rfl hp
  rcases rs with _ | sp
  · exact absurd rfl hs
  exact ⟨_, _, rfl, rfl, rfl, rfl⟩

/-- Whenever a CSV-row insert succeeds, the result extends the chilies table
by one record with the row's values; nothing else changes. -/
theorem insert_csv_row_ok_shape {user_id : Nat} {row : CsvRow} {db db' : AppDb}
    (h : insert_csv_row user_id row db = .ok db') :
    ∃ r, db' = { db with chilies := db.chilies ++ [r],
                         next_chili_id := db.next_chili_id + 1 } ∧
      recordData r = csvRowData row ∧ r.user_id = user_id := by
  obtain ⟨rv, rp, rs, g1, g2, g3, g4⟩ := row
  rcases rv with _ | v <;> rcases rp with _ | pd <;> rcases rs with _ | sp
  all_goals try exact Except.noConfusion h
  exact ⟨_, (Except.ok.inj h).symm, rfl, rfl⟩

/-- A CSV row with a missing required cell binds a NULL into a NOT NULL
column: the INSERT itself fails. -/
theorem insert_csv_row_error {user_id : Nat} {row : CsvRow} {db : AppDb}
    (h : ¬ requiredPresent row) :
    insert_csv_row user_id row db = .error .notNullViolation := by
  obtain ⟨rv, rp, rs, g1, g2, g3, g4⟩ := row
  rcases rv with _ | v <;> rcases rp with _ | pd <;> rcases rs with _ | sp <;>
    first
      | rfl
      | simp [requiredPresent] at h

/-- The CSV insert loop never touches the activity log or its counter,
whether or not it aborts. -/
theorem csv_loop_log (user_id : Nat) (rows : List CsvRow) : ∀ db : AppDb,
    (csv_insert_loop user_id rows db).1.activity_log = db.activity_log ∧
    (csv_insert_loop user_id rows db).1.next_log_id = db.next_log_id := by
  induction rows with
  | nil => exact fun db => ⟨rfl, rfl⟩
  | cons row rest ih =>
    intro db
    unfold csv_insert_loop
    rcases hrow : insert_csv_row user_id row db with e | db1
    · exact ⟨rfl, rfl⟩
    · obtain ⟨r, rfl, -, -⟩ := insert_csv_row_ok_shape hrow
      exact ih _

/-- When every row has its required cells, the loop completes and appends
all rows' contents in order. -/
theorem csv_loop_ok (user_id : Nat) (rows : List CsvRow) : ∀ db : AppDb,
    (∀ row ∈ rows, requiredPresent row) →
    (csv_insert_loop user_id rows db).2 = none ∧
    (csv_insert_loop user_id rows db).1.chilies.map recordData
      = db.chilies.map recordData ++ rows.map csvRowData := by
  induction rows with
  | nil => intro db _; simp [csv_insert_loop]
  | cons row rest ih =>
    intro db h
    obtain ⟨db1, r, hok, rfl, hdata, -⟩ :=
      insert_csv_row_requiredPresent user_id row db (h row (List.mem_cons_self row rest))
    unfold csv_insert_loop
    rw [hok]
    obtain ⟨ha, hb⟩ := ih _ (fun x hx => h x (List.mem_cons_of_mem _ hx))
    refine ⟨ha, ?_⟩
    rw [hb]
    simp [hdata]

/-- A row with a missing required cell aborts the loop at its position: the
rows before it are inserted, it and the rows after it are not. -/
theorem csv_loop_abort (user_id : Nat) (bad : CsvRow) (post : List CsvRow)
    (hbad : ¬ requiredPresent bad) : ∀ (pre : List CsvRow) (db : AppDb),
    (∀ row ∈ pre, requiredPresent row) →
    (csv_insert_loop user_id (pre ++ bad :: post) db).2 = some .notNullViolation ∧
    (csv_insert_loop user_id (pre ++ bad :: post) db).1.chilies.map recordData
      = db.chilies.map recordData ++ pre.map csvRowData := by
  intro pre
  induction pre with
  | nil =>
    intro db _
    rw [List.nil_append]
    unfold csv_insert_loop
    rw [insert_csv_row_error hbad]
    exact ⟨rfl, by simp⟩
  | cons row rest ih =>
    intro db hpre
    obtain ⟨db1, r, hok, rfl, hdata, -⟩ :=
      insert_csv_row_requiredPresent user_id row db (hpre row (List.mem_cons_self row rest))
    rw [List.cons_append]
    unfold csv_insert_loop
    rw [hok]
    obtain ⟨ha, hb⟩ := ih _ (fun x hx => hpre x (List.mem_cons_of_mem _ hx))
    refine ⟨ha, ?_⟩
    rw [hb]
    simp [hdata]

end Helpers

/-- C1 counterexample: user 2 invokes the update on record 1, which is owned
by user 1.  The operation does not fail with NotOwner and does not leave the
record unchanged: it succeeds, overwrites the record's fields (variety goes
from "Habanero" to "Poblano") and writes the success log entry. -/
theorem C1_counterexample :
    c1db.chilies.map (fun r => (r.id, r.user_id, r.variety)) = [(1, 1, "Habanero")] ∧
    (show_table_update 2 1 c1f c1db).chilies.map (fun r => (r.id, r.user_id, r.variety))
      = [(1, 1, "Poblano")] ∧
    (show_table_update 2 1 c1f c1db).activity_log.map (fun e => e.action)
      = ["Updated chili record 1"] := by decide

/-- C1 amended: `update_record` performs an unconditional full-field replace
of whichever record carries the given id, regardless of the caller — the
matching record is replaced by the new field values (its owner and id are
untouched), non-matching records are untouched, and no NotOwner failure
exists; ownership confinement comes only from the UI, which offers record
ids solely from `load_data` of the session user, whose records all belong to
that user. -/
theorem C1_update_no_ownership_check (caller record_id : Nat) (f : UpdateFields)
    (db : AppDb) :
    (∀ r ∈ db.chilies, r.id = record_id →
       applyUpdate f r ∈ (show_table_update caller record_id f db).chilies ∧
       (applyUpdate f r).user_id = r.user_id) ∧
    (∀ r ∈ db.chilies, r.id ≠ record_id →
       r ∈ (show_table_update caller record_id f db).chilies) ∧
    (∀ r ∈ load_data caller db, r.user_id = caller) := by
  refine ⟨?_, ?_, ?_⟩
  · intro r hr hid
    refine ⟨?_, rfl⟩
    have hm := List.mem_map_of_mem
      (fun x => if x.id == record_id then applyUpdate f x else x) hr
    simpa [show_table_update, log_action, hid] using hm
  · intro r hr hid
    have hm := List.mem_map_of_mem
      (fun x => if x.id == record_id then applyUpdate f x else x) hr
    simpa [show_table_update, log_action, hid] using hm
  · intro r hr
    have h1 := (perm_sortByDateDesc _).mem_iff.mp hr
    simpa using List.of_mem_filter h1

/-- C1 witness: the amended theorem applied to the concrete one-record
database, an outside caller (user 2) and the concrete replacement fields. -/
theorem C1_witness :
    applyUpdate c1f ⟨1, 1, "Habanero", 5, 10, none, none, none, none, none⟩
        ∈ (show_table_update 2 1 c1f c1db).chilies ∧
    (applyUpdate c1f ⟨1, 1, "Habanero", 5, 10, none, none, none, none, none⟩).user_id = 1 :=
  (C1_update_no_ownership_check 2 1 c1f c1db).1
    ⟨1, 1, "Habanero", 5, 10, none, none, none, none, none⟩ (by decide) rfl

/-- C2 counterexample: deleting record 1 of `c2db` removes it, but a second
delete on the same id does not fail with NotFound — it completes as a normal
successful operation: the table is unchanged and a second "Deleted" log
entry is appended. -/
theorem C2_counterexample :
    (load_data 1 (show_table_delete 1 1 c2db)).map (fun r => r.id) = [2] ∧
    (show_table_delete 1 1 (show_table_delete 1 1 c2db)).chilies
      = (show_table_delete 1 1 c2db).chilies ∧
    (show_table_delete 1 1 (show_table_delete 1 1 c2db)).activity_log.map (fun e => e.action)
      = ["Deleted chili record 1", "Deleted chili record 1"] := by decide

/-- C2 amended: after `delete_record`, a subsequent `list_records` (for any
user) no longer contains any record with the deleted id; a repeated delete on
the same id is a silent no-op on the chilies table (the code reports success
and logs again), not a NotFound failure. -/
theorem C2_delete_semantics (caller record_id uid : Nat) (db : AppDb) :
    (∀ r ∈ load_data uid (show_table_delete caller record_id db), r.id ≠ record_id) ∧
    (show_table_delete caller record_id (show_table_delete caller record_id db)).chilies
      = (show_table_delete caller record_id db).chilies := by
  constructor
  · intro r hr
    have h1 := (perm_sortByDateDesc _).mem_iff.mp hr
    have h2 := List.mem_of_mem_filter h1
    have h2' : r ∈ db.chilies.filter (fun x => decide (x.id ≠ record_id)) := h2
    simpa using List.of_mem_filter h2'
  · show ((show_table_delete caller record_id db).chilies.filter _) = _
    simp only [show_table_delete, log_action]
    exact filter_filter_self _ _

/-- C2 witness: the amended theorem at the concrete two-record database,
deleting record 1 twice; the surviving record 2 indeed has id ≠ 1. -/
theorem C2_witness :
    (⟨2, 1, "Serrano", 6, 4, none, none, none, none, none⟩ : PlantingRecord).id ≠ 1 ∧
    (show_table_delete 1 1 (show_table_delete 1 1 c2db)).chilies
      = (show_table_delete 1 1 c2db).chilies :=
  ⟨(C2_delete_semantics 1 1 1 c2db).1 _ (by decide), (C2_delete_semantics 1 1 1 c2db).2⟩

/-- C3 counterexample: submitting the add form with an empty variety does
not fail with ValidationError before persistence — the record is inserted
with variety "" and the activity-log entry is written. -/
theorem C3_counterexample :
    c3db.chilies.map (fun r => (r.variety, r.seeds_planted)) = [("", 5)] ∧
    c3db.activity_log.map (fun e => e.action) = ["Added chili variety "] := by decide

/-- C3 amended: the add form has no ValidationError path — every submission
appends exactly one record; the form widgets make seeds_planted < 1 and a
missing planting_date unsubmittable (the inserted record always has
seeds_planted ≥ 1 and the chosen date), but an empty variety is accepted and
persisted as the empty string. -/
theorem C3_add_form_unvalidated_insert (uid : Nat) (variety : String) (pd : Nat)
    (seeds germ : Int) (gd : Nat) (hy : Int) (notes : String)
    (photo : Option String) (db : AppDb) :
    ∃ r, (show_add_form_submit uid variety pd seeds germ gd hy notes photo db).chilies
        = db.chilies ++ [r] ∧
      r.variety = variety ∧ r.planting_date = pd ∧ 1 ≤ r.seeds_planted := by
  refine ⟨_, rfl, rfl, rfl, ?_⟩
  exact le_max_left 1 seeds

/-- C4 counterexample: two records of user 1 share planting_date 5; the
claim requires them in id-descending order [2, 1], but `load_data` returns
them in id-ascending (structural) order [1, 2]. -/
theorem C4_counterexample :
    (load_data 1 c4db).map (fun r => (r.planting_date, r.id)) = [(5, 1), (5, 2)] ∧
    (load_data 1 c4db).map (fun r => r.id) ≠ [2, 1] := by decide

/-- C4 amended: for a chilies table in rowid order (ids strictly
increasing), `list_records(owner_user_id)` returns exactly that user's
records sorted by planting_date descending, with records of equal
planting_date ordered by id ascending (insertion order). -/
theorem C4_list_records_order (uid : Nat) (db : AppDb)
    (hids : db.chilies.Pairwise (fun a b => a.id < b.id)) :
    List.Perm (load_data uid db) (db.chilies.filter (fun r => r.user_id == uid)) ∧
    (∀ r ∈ load_data uid db, r.user_id = uid) ∧
    (load_data uid db).Pairwise chronOrder := by
  refine ⟨perm_sortByDateDesc _, ?_, ?_⟩
  · intro r hr
    have h1 := (perm_sortByDateDesc _).mem_iff.mp hr
    simpa using List.of_mem_filter h1
  · exact pairwise_sortByDateDesc (hids.filter _)

/-- C4 witness: the amended theorem at the concrete four-record database
(two owners, one date tie among user 1's records). -/
theorem C4_witness :
    List.Perm (load_data 1 c4wdb) (c4wdb.chilies.filter (fun r => r.user_id == 1)) ∧
    (load_data 1 c4wdb).Pairwise chronOrder :=
  ⟨(C4_list_records_order 1 c4wdb (by decide)).1,
   (C4_list_records_order 1 c4wdb (by decide)).2.2⟩

/-- C5 counterexample: bulk CSV import inserts a row with seeds_planted = 0
without any ValidationError, and the resulting record is part of the
aggregation input (`load_data`) for its owner. -/
theorem C5_counterexample :
    (load_data 3 c5db).map (fun r => (r.variety, r.seeds_planted)) = [("Ghost", 0)] := by
  decide

/-- C5 amended: the interactive add form cannot create a record with
seeds_planted < 1 (every record it appends has seeds_planted ≥ 1); the bulk
CSV import applies no validation — any row whose three required cells are
present, including one with seeds_planted = 0, is inserted with its column
values copied verbatim — and every stored record of a user is part of that
user's aggregation input. -/
theorem C5_seed_floor_gap :
    (∀ uid variety pd seeds germ gd hy notes photo db,
       ∀ r ∈ (show_add_form_submit uid variety pd seeds germ gd hy notes photo db).chilies,
         r ∈ db.chilies ∨ 1 ≤ r.seeds_planted) ∧
    (∀ uid row db, requiredPresent row →
       (insert_csv_row uid row db).toOption.map (fun d => d.chilies.map recordData)
         = some (db.chilies.map recordData ++ [csvRowData row])) ∧
    (∀ uid db, ∀ r ∈ db.chilies, r.user_id = uid → r ∈ load_data uid db) := by
  refine ⟨?_, ?_, ?_⟩
  · intro uid variety pd seeds germ gd hy notes photo db r hr
    simp only [show_add_form_submit, log_action, List.mem_append,
      List.mem_singleton] at hr
    rcases hr with h | rfl
    · exact Or.inl h
    · exact Or.inr (le_max_left 1 seeds)
  · intro uid row db h
    obtain ⟨db1, r, hok, rfl, hdata, -⟩ := insert_csv_row_requiredPresent uid row db h
    rw [hok]
    simp [Except.toOption, hdata]
  · intro uid db r hr hu
    have hp := perm_sortByDateDesc (db.chilies.filter (fun x => x.user_id == uid))
    apply hp.mem_iff.mpr
    exact List.mem_filter.mpr ⟨hr, by simp [hu]⟩

/-- C5 witness: the amended theorem applied to a concrete form submission
attempting seeds_planted = 0 (the inserted record carries 1 ≥ 1) and to the
concrete CSV row with seeds_planted = 0 (inserted verbatim). -/
theorem C5_witness :
    ((⟨1, 9, "Ghost", 5, 1, some 0, some 6, some 0, some "", none⟩ : PlantingRecord)
        ∈ emptyDb.chilies ∨
      1 ≤ (⟨1, 9, "Ghost", 5, 1, some 0, some 6, some 0, some "", none⟩
             : PlantingRecord).seeds_planted) ∧
    (insert_csv_row 3 c5row emptyDb).toOption.map (fun d => d.chilies.map recordData)
      = some (emptyDb.chilies.map recordData ++ [csvRowData c5row]) :=
  ⟨C5_seed_floor_gap.1 9 "Ghost" 5 0 0 6 0 "" none emptyDb _ (by decide),
   C5_seed_floor_gap.2.1 3 c5row emptyDb (by decide)⟩

/-- C6: a login attempt with an unknown username and one with a known
username but a password whose hash differs from the stored hash return the
same result, namely `none` (the UI maps both to the same "Invalid
credentials" message); a login succeeds only when both the username and the
password hash match the stored row exactly. -/
theorem C6_auth_indistinguishable (hash_password : String → String)
    (users : List User) (u1 p1 u2 p2 : String)
    (h1 : ∀ usr ∈ users, usr.username ≠ u1)
    (h2 : ∀ usr ∈ users, usr.username = u2 → usr.password ≠ hash_password p2) :
    check_login hash_password u1 p1 users = check_login hash_password u2 p2 users ∧
    check_login hash_password u1 p1 users = none ∧
    ∀ u p usr, check_login hash_password u p users = some usr →
      usr.username = u ∧ usr.password = hash_password p := by
  have e1 : check_login hash_password u1 p1 users = none := by
    apply List.find?_eq_none.mpr
    intro usr hm hpred
    rw [Bool.and_eq_true, beq_iff_eq, beq_iff_eq] at hpred
    exact h1 usr hm hpred.1
  have e2 : check_login hash_password u2 p2 users = none := by
    apply List.find?_eq_none.mpr
    intro usr hm hpred
    rw [Bool.and_eq_true, beq_iff_eq, beq_iff_eq] at hpred
    exact h2 usr hm hpred.1 hpred.2
  refine ⟨e1.trans e2.symm, e1, ?_⟩
  intro u p usr h
  have hpred := List.find?_some h
  rw [Bool.and_eq_true, beq_iff_eq, beq_iff_eq] at hpred
  exact hpred

/-- C6 witness: over a store holding only alice (stored hash "pw#" under the
concrete hash appending "#"), the unknown-user attempt bob/"pw" and the
wrong-password attempt alice/"bad" return the same failure value `none`. -/
theorem C6_witness :
    check_login (fun s => s ++ "#") "bob" "pw" [⟨1, "alice", "pw#", "user"⟩]
      = check_login (fun s => s ++ "#") "alice" "bad" [⟨1, "alice", "pw#", "user"⟩] ∧
    check_login (fun s => s ++ "#") "bob" "pw" [⟨1, "alice", "pw#", "user"⟩] = none :=
  ⟨(C6_auth_indistinguishable (fun s => s ++ "#") [⟨1, "alice", "pw#", "user"⟩]
      "bob" "pw" "alice" "bad" (by decide) (by decide)).1,
   (C6_auth_indistinguishable (fun s => s ++ "#") [⟨1, "alice", "pw#", "user"⟩]
      "bob" "pw" "alice" "bad" (by decide) (by decide)).2.1⟩

/-- C7 counterexample: a batch whose first row breaks the add-form rules
(empty-string variety, zero seeds — values that bind cleanly) is imported
wholesale — the invalid row is inserted like the valid one, no row is
validated, rejected or reported, and only the single unconditional batch
log entry is written. -/
theorem C7_counterexample :
    c7db.chilies.map (fun r => (r.variety, r.seeds_planted)) = [("", 0), ("Cayenne", 20)] ∧
    c7db.activity_log.map (fun e => e.action) = ["Uploaded chili data from CSV"] := by
  decide

/-- C7 amended: bulk import applies none of add_record's validation rules —
a batch whose rows merely have their three NOT NULL cells present is
inserted wholesale, each row's column values copied verbatim with nothing
reported, even for rows violating those rules (empty-string variety, zero
seeds).  A row with a missing required cell is not reported per-row either:
its INSERT raises the database's NOT NULL violation, which aborts the batch
mid-loop — the rows before it remain inserted, it and the rows after it are
never inserted, and no batch log entry is written. -/
theorem C7_bulk_import_no_validation (user_id : Nat) (db : AppDb) :
    (∀ rows, (∀ row ∈ rows, requiredPresent row) →
       (show_upload_csv user_id rows db).2 = none ∧
       (show_upload_csv user_id rows db).1.chilies.map recordData
         = db.chilies.map recordData ++ rows.map csvRowData) ∧
    (∀ pre bad post, (∀ row ∈ pre, requiredPresent row) → ¬ requiredPresent bad →
       (show_upload_csv user_id (pre ++ bad :: post) db).2
         = some InsertError.notNullViolation ∧
       (show_upload_csv user_id (pre ++ bad :: post) db).1.chilies.map recordData
         = db.chilies.map recordData ++ pre.map csvRowData ∧
       (show_upload_csv user_id (pre ++ bad :: post) db).1.activity_log
         = db.activity_log) := by
  constructor
  · intro rows h
    rcases hl : csv_insert_loop user_id rows db with ⟨db', o⟩
    obtain ⟨ho, hm⟩ := csv_loop_ok user_id rows db h
    rw [hl] at ho hm
    have ho' : o = none := ho
    have hm' : db'.chilies.map recordData
        = db.chilies.map recordData ++ rows.map csvRowData := hm
    subst ho'
    refine ⟨?_, ?_⟩ <;> simp [show_upload_csv, hl, log_action, hm']
  · intro pre bad post hpre hbad
    rcases hl : csv_insert_loop user_id (pre ++ bad :: post) db with ⟨db', o⟩
    obtain ⟨ho, hm⟩ := csv_loop_abort user_id bad post hbad pre db hpre
    rw [hl] at ho hm
    have ho' : o = some InsertError.notNullViolation := ho
    have hm' : db'.chilies.map recordData
        = db.chilies.map recordData ++ pre.map csvRowData := hm
    have hlog := csv_loop_log user_id (pre ++ bad :: post) db
    rw [hl] at hlog
    have hlog' : db'.activity_log = db.activity_log := hlog.1
    subst ho'
    refine ⟨?_, ?_, ?_⟩ <;> simp [show_upload_csv, hl, hm', hlog']

/-- C7 witness: the amended theorem at the concrete two-row batch (both rows
complete: imported wholesale with no report) and at that batch followed by a
row with an empty variety cell and then the same two rows again (aborts with
the NOT NULL violation, keeps the first two rows, writes no log entry). -/
theorem C7_witness :
    ((show_upload_csv 4 c7rows emptyDb).2 = none ∧
     (show_upload_csv 4 c7rows emptyDb).1.chilies.map recordData
       = emptyDb.chilies.map recordData ++ c7rows.map csvRowData) ∧
    ((show_upload_csv 4 (c7rows ++ c7badRow :: c7rows) emptyDb).2
        = some InsertError.notNullViolation ∧
     (show_upload_csv 4 (c7rows ++ c7badRow :: c7rows) emptyDb).1.chilies.map recordData
       = emptyDb.chilies.map recordData ++ c7rows.map csvRowData ∧
     (show_upload_csv 4 (c7rows ++ c7badRow :: c7rows) emptyDb).1.activity_log
       = emptyDb.activity_log) :=
  ⟨(C7_bulk_import_no_validation 4 emptyDb).1 c7rows (by decide),
   (C7_bulk_import_no_validation 4 emptyDb).2 c7rows c7badRow c7rows
     (by decide) (by decide)⟩

/-- C8 counterexample: account creation — a mutating operation on User —
succeeds while appending no activity-log entry, and a bulk import of two
rows appends a single entry rather than one per inserted row. -/
theorem C8_counterexample :
    (create_account (fun s => s ++ "#") "alice" "pw" "user" emptyDb).toOption.map
        (fun p => (p.2.users.length, p.2.activity_log.length)) = some (1, 0) ∧
    (show_upload_csv 1 [⟨some "A", some 1, some 1, none, none, none, none⟩,
                        ⟨some "B", some 2, some 2, none, none, none, none⟩]
        emptyDb).1.chilies.length = 2 ∧
    (show_upload_csv 1 [⟨some "A", some 1, some 1, none, none, none, none⟩,
                        ⟨some "B", some 2, some 2, none, none, none, none⟩]
        emptyDb).1.activity_log.length = 1 := by decide

/-- C8 amended: add_record, update_record and delete_record each append
exactly one ActivityLogEntry; bulk import appends exactly one entry when the
batch completes and none when a row's constraint violation aborts it;
account creation appends none; and every operation only appends to the
activity log — existing entries are never updated or deleted. -/
theorem C8_logging :
    (∀ uid variety pd seeds germ gd hy notes photo db,
      (show_add_form_submit uid variety pd seeds germ gd hy notes photo db).activity_log
        = db.activity_log ++ [⟨db.next_log_id, some uid, "Added chili variety " ++ variety⟩]) ∧
    (∀ caller record_id f db,
      (show_table_update caller record_id f db).activity_log
        = db.activity_log
            ++ [⟨db.next_log_id, some caller, "Updated chili record " ++ toString record_id⟩]) ∧
    (∀ caller record_id db,
      (show_table_delete caller record_id db).activity_log
        = db.activity_log
            ++ [⟨db.next_log_id, some caller, "Deleted chili record " ++ toString record_id⟩]) ∧
    (∀ uid rows db,
      ((show_upload_csv uid rows db).2 = none →
        (show_upload_csv uid rows db).1.activity_log
          = db.activity_log ++ [⟨db.next_log_id, some uid, "Uploaded chili data from CSV"⟩]) ∧
      ((show_upload_csv uid rows db).2 ≠ none →
        (show_upload_csv uid rows db).1.activity_log = db.activity_log)) ∧
    (∀ hash un pw role db u db',
      create_account hash un pw role db = .ok (u, db') →
        db'.activity_log = db.activity_log) := by
  refine ⟨fun _ _ _ _ _ _ _ _ _ _ => rfl, fun _ _ _ _ => rfl, fun _ _ _ => rfl, ?_, ?_⟩
  · intro uid rows db
    rcases hl : csv_insert_loop uid rows db with ⟨db', o⟩
    have hlog := csv_loop_log uid rows db
    rw [hl] at hlog
    have hlog1 : db'.activity_log = db.activity_log := hlog.1
    have hlog2 : db'.next_log_id = db.next_log_id := hlog.2
    cases o with
    | none =>
      constructor
      · intro _
        simp [show_upload_csv, hl, log_action, hlog1, hlog2]
      · intro hne
        exact absurd (by simp [show_upload_csv, hl]) hne
    | some e =>
      constructor
      · intro hnone
        simp [show_upload_csv, hl] at hnone
      · intro _
        simp [show_upload_csv, hl, hlog1]
  · intro hash un pw role db u db' h
    unfold create_account at h
    split at h
    · simp at h
    · rw [Except.ok.injEq, Prod.mk.injEq] at h
      obtain ⟨hu, hdb⟩ := h
      subst hdb
      rfl

/-- C8 witness: the amended theorem at a concrete form submission (one entry
appended), a concrete completed one-row import (one entry for the batch) and
a concrete successful account creation (no entry appended). -/
theorem C8_witness :
    (show_add_form_submit 1 "Anaheim" 5 3 2 6 0 "x" none emptyDb).activity_log
      = emptyDb.activity_log ++ [⟨1, some 1, "Added chili variety " ++ "Anaheim"⟩] ∧
    (show_upload_csv 1 [⟨some "A", some 1, some 1, none, none, none, none⟩]
        emptyDb).1.activity_log
      = emptyDb.activity_log ++ [⟨1, some 1, "Uploaded chili data from CSV"⟩] ∧
    ({ emptyDb with users := [⟨1, "carol", "pw#", "user"⟩], next_user_id := 2 }
        : AppDb).activity_log = emptyDb.activity_log :=
  ⟨C8_logging.1 1 "Anaheim" 5 3 2 6 0 "x" none emptyDb,
   (C8_logging.2.2.2.1 1 [⟨some "A", some 1, some 1, none, none, none, none⟩]
      emptyDb).1 (by decide),
   C8_logging.2.2.2.2 (fun s => s ++ "#") "carol" "pw" "user" emptyDb
     ⟨1, "carol", "pw#", "user"⟩
     { emptyDb with users := [⟨1, "carol", "pw#", "user"⟩], next_user_id := 2 }
     (by rfl)⟩

/-- C9: adding the specification's example record (variety Jalapeño, planted
2024-03-01, 10 seeds planted, 8 germinated) and computing the dashboard
metrics over the single-record set yields 1 distinct variety, 10 total seeds
and a mean germination rate of 80 percent; the mean ranges only over records
whose germinated_seeds is present. -/
theorem C9_dashboard_example : show_dashboard 1 c9db = some (1, 10, some 80) := by
  simp [show_dashboard, c9db, show_add_form_submit, load_data, emptyDb, log_action,
        sortByDateDesc, insertByDateDesc, number_input, avgGermRatePct, germRatios, round1]
  constructor
  · decide
  · norm_num [round_eq]

/-- C10: a successful create_account followed immediately by authenticate
with the same username and plaintext password succeeds and returns exactly
the created user's row — the stored hash is re-derived by the same
deterministic hash function, so the comparison matches. -/
theorem C10_create_then_login (hash_password : String → String)
    (username password role : String) (db : AppDb) (u : User) (db' : AppDb)
    (h : create_account hash_password username password role db = .ok (u, db')) :
    check_login hash_password username password db'.users = some u := by
  unfold create_account at h
  split at h
  · simp at h
  next hdup =>
    rw [Except.ok.injEq, Prod.mk.injEq] at h
    obtain ⟨hu, hdb⟩ := h
    subst hdb
    subst hu
    show List.find? (fun x : User => x.username == username && x.password == hash_password password)
        (db.users ++ [(⟨db.next_user_id, username, hash_password password, role⟩ : User)])
      = some ⟨db.next_user_id, username, hash_password password, role⟩
    rw [find?_append_all_false]
    · simp
    · intro y hy
      have hfalse : (y.username == username) = false := by
        by_contra hne
        rw [Bool.not_eq_false] at hne
        exact hdup (List.any_eq_true.mpr ⟨y, hy, hne⟩)
      simp [hfalse]

/-- C10 witness: creating carol with password "pw" in the empty database
under the concrete hash appending "#", then logging in as carol/"pw",
returns carol's row. -/
theorem C10_witness :
    check_login (fun s => s ++ "#") "carol" "pw"
        ({ emptyDb with users := [⟨1, "carol", "pw#", "user"⟩], next_user_id := 2 }
          : AppDb).users
      = some ⟨1, "carol", "pw#", "user"⟩ :=
  C10_create_then_login (fun s => s ++ "#") "carol" "pw" "user" emptyDb
    ⟨1, "carol", "pw#", "user"⟩
    { emptyDb with users := [⟨1, "carol", "pw#", "user"⟩], next_user_id := 2 }
    (by rfl)

end ChiliTracker
